import Mathlib

/-!
Shallow embedding of the Sipeed NanoKVM Home Assistant integration
(`custom_components/nanokvm`).

The embedding covers the pieces of the repository the verified claims are
about:

* `NanoKVMDataUpdateCoordinator._async_update_data` (`__init__.py`): one
  refresh cycle against the device client — optional initial authentication,
  eleven sequential read calls inside an `async_timeout.timeout(10)` block,
  and the `except` clause that retries once after a re-authentication and
  otherwise raises `UpdateFailed`.  The Python recursion
  `return await self._async_update_data()` is modelled with an explicit fuel
  parameter; exhausting every finite fuel corresponds to non-termination of
  the recursion.
* `NanoKVMSwitch` / `NanoKVMPowerSwitch` / `NanoKVMButton` entity actions
  (`switch.py`, `button.py`), modelled as the trace of operations they emit.
* the six registered services (`handle_push_button`, `handle_paste_text`,
  `handle_reboot`, `handle_reset_hdmi`, `handle_reset_hid`,
  `handle_wake_on_lan`) and the `PUSH_BUTTON_SCHEMA` validation rules.

Device-client payloads are opaque and represented by natural numbers; the
client itself (library `nanokvm.client`, not part of this repository) is a
behaviour: a script assigning a result to each authenticate / read call.
-/

namespace NanoKVMSpec

/-- Opaque payload value returned by a device-client read call. -/
abbrev V := Nat

/-- Errors raised by the device client or the transport, as caught by
`_async_update_data`: `NanoKVMAuthenticationFailure`, any other
`NanoKVMError` or `aiohttp.ClientError` (transport failures), and
`asyncio.TimeoutError` raised by the `async_timeout.timeout(10)` block. -/
inductive KVMErr where
  | authFailure
  | commFailure
  | timeoutErr
deriving DecidableEq, Repr

/-- The eleven read calls issued by `_async_update_data`, in source order. -/
inductive ReadCall where
  | getInfo
  | getHardware
  | getGpio
  | getVirtualDeviceStatus
  | getSshState
  | getMdnsState
  | getHidMode
  | getOledInfo
  | getWifiStatus
  | getMountedImage
  | getCdromStatus
deriving DecidableEq, Repr

/-- The read calls in the order `_async_update_data` issues them. -/
def readOrder : List ReadCall :=
  [.getInfo, .getHardware, .getGpio, .getVirtualDeviceStatus, .getSshState,
   .getMdnsState, .getHidMode, .getOledInfo, .getWifiStatus,
   .getMountedImage, .getCdromStatus]

/-- Position (1-based) of a read call in the fixed sequence; used to build
distinguishable mock payloads. -/
def readIdx : ReadCall → Nat
  | .getInfo => 1
  | .getHardware => 2
  | .getGpio => 3
  | .getVirtualDeviceStatus => 4
  | .getSshState => 5
  | .getMdnsState => 6
  | .getHidMode => 7
  | .getOledInfo => 8
  | .getWifiStatus => 9
  | .getMountedImage => 10
  | .getCdromStatus => 11

/-- Mutable attributes of `NanoKVMDataUpdateCoordinator` touched by
`_async_update_data`: the client token (`self.client.token`) and the eleven
sub-result fields assigned one by one inside the fetch block. -/
structure CoordState where
  token : Option V
  device_info : Option V
  hardware_info : Option V
  gpio_info : Option V
  virtual_device_info : Option V
  ssh_state : Option V
  mdns_state : Option V
  hid_mode : Option V
  oled_info : Option V
  wifi_status : Option V
  mounted_image : Option V
  cdrom_status : Option V
deriving DecidableEq, Repr

/-- The dictionary returned by a successful `_async_update_data` call: the
complete aggregate of the eleven sub-results (the Snapshot of the spec). -/
structure Snapshot where
  device_info : V
  hardware_info : V
  gpio_info : V
  virtual_device_info : V
  ssh_state : V
  mdns_state : V
  hid_mode : V
  oled_info : V
  wifi_status : V
  mounted_image : V
  cdrom_status : V
deriving DecidableEq, Repr

/-- A mocked device client: the result of the n-th `authenticate` call (a
success carries the token it installs), the result of each read call during
the n-th fetch attempt, and the time each such read takes (used by the
shared batch timeout). -/
structure ClientBehavior where
  auth : Nat → Except KVMErr V
  read : Nat → ReadCall → Except KVMErr V
  dur : Nat → ReadCall → Nat

/-- The `async_timeout.timeout(10)` bound shared by the whole batch of reads. -/
def BATCH_TIMEOUT : Nat := 10

/-- State threaded through the fetch block: coordinator attributes, elapsed
time inside the timeout block, and the log of read calls issued so far. -/
structure FetchSt where
  coord : CoordState
  t : Nat
  log : List ReadCall
deriving DecidableEq, Repr

/-- One `self.<field> = await self.client.get_<x>()` statement inside the
timeout block.  The call is issued (logged) and consumes its duration; if the
shared deadline has then passed the await is cancelled and
`asyncio.TimeoutError` is raised, the field not assigned; a client error
likewise propagates without assigning the field; on success the coordinator
attribute is overwritten with the fresh value. -/
def readStep (b : ClientBehavior) (a : Nat) (c : ReadCall)
    (set : CoordState → V → CoordState) (s : FetchSt) :
    Except (FetchSt × KVMErr) (FetchSt × V) :=
  let t := s.t + b.dur a c
  let s := { s with t := t, log := s.log ++ [c] }
  if BATCH_TIMEOUT < t then .error (s, .timeoutErr)
  else
    match b.read a c with
    | .error e => .error (s, e)
    | .ok v => .ok ({ s with coord := set s.coord v }, v)

/-- The body of the `async with async_timeout.timeout(10)` block of
`_async_update_data`: the eleven sequential reads, each assigning its
coordinator attribute, followed by assembly of the returned dictionary. -/
def runReads (b : ClientBehavior) (a : Nat) (st : CoordState) :
    Except (FetchSt × KVMErr) (FetchSt × Snapshot) := do
  let (s, v1) ← readStep b a .getInfo (fun c v => { c with device_info := some v }) ⟨st, 0, []⟩
  let (s, v2) ← readStep b a .getHardware (fun c v => { c with hardware_info := some v }) s
  let (s, v3) ← readStep b a .getGpio (fun c v => { c with gpio_info := some v }) s
  let (s, v4) ← readStep b a .getVirtualDeviceStatus (fun c v => { c with virtual_device_info := some v }) s
  let (s, v5) ← readStep b a .getSshState (fun c v => { c with ssh_state := some v }) s
  let (s, v6) ← readStep b a .getMdnsState (fun c v => { c with mdns_state := some v }) s
  let (s, v7) ← readStep b a .getHidMode (fun c v => { c with hid_mode := some v }) s
  let (s, v8) ← readStep b a .getOledInfo (fun c v => { c with oled_info := some v }) s
  let (s, v9) ← readStep b a .getWifiStatus (fun c v => { c with wifi_status := some v }) s
  let (s, v10) ← readStep b a .getMountedImage (fun c v => { c with mounted_image := some v }) s
  let (s, v11) ← readStep b a .getCdromStatus (fun c v => { c with cdrom_status := some v }) s
  pure (s, ⟨v1, v2, v3, v4, v5, v6, v7, v8, v9, v10, v11⟩)

/-- State of one run of the coordinator refresh: coordinator attributes plus
counters indexing the behaviour scripts (`nAuth` authenticate calls made,
`nFetch` fetch attempts begun) and the accumulated log of issued reads. -/
structure RunSt where
  coord : CoordState
  nAuth : Nat
  nFetch : Nat
  reads : List ReadCall
deriving DecidableEq, Repr

/-- The two `UpdateFailed` messages `_async_update_data` can raise. -/
inductive UpdateErr where
  | authError
  | commError
deriving DecidableEq, Repr

/-- Outcome of a refresh run.  `diverge` marks exhaustion of the recursion
fuel: the Python recursion has not terminated within the given budget. -/
inductive UpdateResult where
  | ok (snap : Snapshot)
  | failed (e : UpdateErr)
  | diverge
deriving DecidableEq, Repr

/-- Result of the `except` clause of `_async_update_data`: either re-raise as
`UpdateFailed` or, after a successful re-authentication on an
authentication-rejected error, retry the whole body. -/
inductive ExceptOutcome where
  | retry (s : RunSt)
  | fail (s : RunSt) (e : UpdateErr)
deriving Repr

/-- The `except (NanoKVMError, aiohttp.ClientError, asyncio.TimeoutError)`
clause: on `NanoKVMAuthenticationFailure` re-authenticate and, if that
succeeds, redo the update; if the re-authentication raises, fail with the
`Authentication failed` `UpdateFailed`.  Any other caught error fails with
the `Error communicating with NanoKVM` `UpdateFailed`. -/
def exceptClause (b : ClientBehavior) (s : RunSt) (e : KVMErr) : ExceptOutcome :=
  match e with
  | .authFailure =>
    match b.auth s.nAuth with
    | .ok tok =>
      .retry { s with coord := { s.coord with token := some tok }, nAuth := s.nAuth + 1 }
    | .error _ => .fail { s with nAuth := s.nAuth + 1 } .authError
  | _ => .fail s .commError

/-- The fetch phase of the try block: run the eleven reads indexed by the
current attempt counter, then either return the assembled snapshot or hand
the caught error to the `except` clause.  Partial attribute assignments made
before the failure are kept (`fs.coord`). -/
def tryFetch (b : ClientBehavior) (s : RunSt) : ExceptOutcome ⊕ (RunSt × Snapshot) :=
  match runReads b s.nFetch s.coord with
  | .ok (fs, snap) =>
    .inr ({ s with coord := fs.coord, nFetch := s.nFetch + 1, reads := s.reads ++ fs.log }, snap)
  | .error (fs, e) =>
    .inl (exceptClause b { s with coord := fs.coord, nFetch := s.nFetch + 1, reads := s.reads ++ fs.log } e)

/-- `NanoKVMDataUpdateCoordinator._async_update_data`, with explicit fuel for
the unguarded self-recursion `return await self._async_update_data()`.
The try block first authenticates when `self.client.token` is unset (an
error there goes to the same `except` clause without any read being issued),
then runs the fetch phase. -/
def async_update_data (b : ClientBehavior) : Nat → RunSt → RunSt × UpdateResult
  | 0, s => (s, .diverge)
  | fuel + 1, s =>
    let step : ExceptOutcome ⊕ (RunSt × Snapshot) :=
      match s.coord.token with
      | none =>
        match b.auth s.nAuth with
        | .error e => .inl (exceptClause b { s with nAuth := s.nAuth + 1 } e)
        | .ok tok =>
          tryFetch b { s with coord := { s.coord with token := some tok }, nAuth := s.nAuth + 1 }
      | some _ => tryFetch b s
    match step with
    | .inr (s, snap) => (s, .ok snap)
    | .inl (.fail s e) => (s, .failed e)
    | .inl (.retry s) => async_update_data b fuel s

/-- Modelled from the spec: the host coordinator framework (class
`DataUpdateCoordinator`, host code outside this repository) publishes the
dictionary returned by a successful refresh as the new Snapshot and keeps
the previous one when the refresh raises `UpdateFailed` ("leaving the
previous Snapshot as the last-known-good value"). -/
def publish (prev : Option Snapshot) : UpdateResult → Option Snapshot
  | .ok snap => some snap
  | _ => prev

/-! ### Concrete mocked clients and coordinator states used by the claims -/

/-- Coordinator attributes after some earlier successful cycle: token present
and every sub-result field holding an old value (field with position `i`
holds `i`). -/
def coordPrev : CoordState :=
  { token := some 0, device_info := some 1, hardware_info := some 2,
    gpio_info := some 3, virtual_device_info := some 4, ssh_state := some 5,
    mdns_state := some 6, hid_mode := some 7, oled_info := some 8,
    wifi_status := some 9, mounted_image := some 10, cdrom_status := some 11 }

/-- Run state at the start of a refresh following an earlier successful one. -/
def s0 : RunSt := { coord := coordPrev, nAuth := 0, nFetch := 0, reads := [] }

/-- Run state of a session that holds no token (only `device_info` was filled
by the setup call). -/
def sNoToken : RunSt :=
  { coord := { coordPrev with token := none }, nAuth := 0, nFetch := 0, reads := [] }

/-- Mocked client for which every call succeeds instantly: the read at
position `i` returns `100 + i`. -/
def bAllOk : ClientBehavior :=
  { auth := fun _ => .ok 0,
    read := fun _ c => .ok (100 + readIdx c),
    dur := fun _ _ => 0 }

/-- Mocked client whose 7th read (`get_hid_mode`) raises a transport error
while every other call succeeds with a fresh, distinguishable value. -/
def b7 : ClientBehavior :=
  { auth := fun _ => .ok 0,
    read := fun _ c => if c = .getHidMode then .error .commFailure else .ok (100 + readIdx c),
    dur := fun _ _ => 0 }

/-- Mocked client whose `authenticate` always succeeds while every read is
rejected as unauthenticated (token accepted at login, rejected on use). -/
def bAuthLoop : ClientBehavior :=
  { auth := fun _ => .ok 0,
    read := fun _ _ => .error .authFailure,
    dur := fun _ _ => 0 }

/-- Mocked client whose first `authenticate` call fails with an
authentication error while the second succeeds; all reads succeed. -/
def b3 : ClientBehavior :=
  { auth := fun n => if n = 0 then .error .authFailure else .ok 0,
    read := fun _ c => .ok (100 + readIdx c),
    dur := fun _ _ => 0 }

/-- Mocked client whose `authenticate` always fails with an authentication
error; all reads would succeed. -/
def bAuthFail : ClientBehavior :=
  { auth := fun _ => .error .authFailure,
    read := fun _ c => .ok (100 + readIdx c),
    dur := fun _ _ => 0 }

/-- Mocked client where every single read succeeds and takes 1 time unit —
each call far below the 10-unit bound, but the batch of eleven exceeds it. -/
def bSlow : ClientBehavior :=
  { auth := fun _ => .ok 0,
    read := fun _ c => .ok (100 + readIdx c),
    dur := fun _ _ => 1 }

/-! ### Entity actions, registered services and their validation
(`switch.py`, `button.py`, service registration in `__init__.py`,
constants from `const.py`) -/

/-- Constant `BUTTON_TYPE_POWER` of `const.py`. -/
def BUTTON_TYPE_POWER : String := "power"

/-- Constant `BUTTON_TYPE_RESET` of `const.py`. -/
def BUTTON_TYPE_RESET : String := "reset"

/-- Constant `DEFAULT_SCAN_INTERVAL` of `const.py` (seconds). -/
def DEFAULT_SCAN_INTERVAL : Nat := 30

/-- The two GPIO lines of `nanokvm.models.GpioType` used here. -/
inductive GpioKind where
  | power
  | reset
deriving DecidableEq, Repr

/-- The two members of `nanokvm.models.VirtualDevice` used here. -/
inductive VirtDevice where
  | network
  | disk
deriving DecidableEq, Repr

/-- Device-client control calls issued by the entity actions and services. -/
inductive CtrlCall where
  | pushButton (g : GpioKind) (duration : Int)
  | pasteText (text : String)
  | rebootSystem
  | resetHdmi
  | resetHid
  | enableSsh
  | disableSsh
  | enableMdns
  | disableMdns
  | updateVirtualDevice (d : VirtDevice)
  | sendWakeOnLan (mac : String)
  | updateApplication
deriving DecidableEq, Repr

/-- Observable operations emitted by an entity action or a service handler:
a device-client control call, a `coordinator.async_request_refresh()`, an
`asyncio.sleep`, or a log line. -/
inductive Op where
  | client (c : CtrlCall)
  | requestRefresh
  | sleepSecs (n : Nat)
  | logDebug
  | logError
deriving DecidableEq, Repr

/-- One entry of the `SWITCHES` table of `switch.py`: the key and the
embedded `turn_on_fn` / `turn_off_fn` device calls. -/
structure SwitchDesc where
  key : String
  turn_on_fn : CtrlCall
  turn_off_fn : CtrlCall
deriving DecidableEq, Repr

/-- The `key="ssh"` entry of `SWITCHES`. -/
def sshSwitch : SwitchDesc := ⟨"ssh", .enableSsh, .disableSsh⟩

/-- The `key="mdns"` entry of `SWITCHES`. -/
def mdnsSwitch : SwitchDesc := ⟨"mdns", .enableMdns, .disableMdns⟩

/-- The `key="virtual_network"` entry of `SWITCHES`: both directions call
`update_virtual_device(VirtualDevice.NETWORK)`. -/
def virtualNetworkSwitch : SwitchDesc :=
  ⟨"virtual_network", .updateVirtualDevice .network, .updateVirtualDevice .network⟩

/-- The `key="virtual_disk"` entry of `SWITCHES`: both directions call
`update_virtual_device(VirtualDevice.DISK)`. -/
def virtualDiskSwitch : SwitchDesc :=
  ⟨"virtual_disk", .updateVirtualDevice .disk, .updateVirtualDevice .disk⟩

/-- The `key="power"` entry of `SWITCHES`. -/
def powerSwitchDesc : SwitchDesc :=
  ⟨"power", .pushButton .power 200, .pushButton .power 200⟩

/-- The `SWITCHES` table of `switch.py`, in source order. -/
def SWITCHES : List SwitchDesc :=
  [sshSwitch, mdnsSwitch, virtualNetworkSwitch, virtualDiskSwitch, powerSwitchDesc]

/-- One entry of the `BUTTONS` table of `button.py`. -/
structure ButtonDesc where
  key : String
  press_fn : CtrlCall
deriving DecidableEq, Repr

/-- The `BUTTONS` table of `button.py`, in source order. -/
def BUTTONS : List ButtonDesc :=
  [⟨"power", .pushButton .power 100⟩,
   ⟨"reset", .pushButton .reset 100⟩,
   ⟨"reboot", .rebootSystem⟩,
   ⟨"reset_hdmi", .resetHdmi⟩,
   ⟨"reset_hid", .resetHid⟩,
   ⟨"update_application", .updateApplication⟩]

/-- Trace of `NanoKVMSwitch.async_turn_on`: the embedded device call, then
`async_request_refresh`. -/
def switchTurnOn (d : SwitchDesc) : List Op := [.client d.turn_on_fn, .requestRefresh]

/-- Trace of `NanoKVMSwitch.async_turn_off`. -/
def switchTurnOff (d : SwitchDesc) : List Op := [.client d.turn_off_fn, .requestRefresh]

/-- Trace of `NanoKVMPowerSwitch.async_turn_on`: device call, one-second
sleep, then refresh. -/
def powerSwitchTurnOnTrace : List Op :=
  [.client (.pushButton .power 200), .sleepSecs 1, .requestRefresh]

/-- Trace of `NanoKVMButton.async_press`: the embedded `press_fn` device
call, then `async_request_refresh`. -/
def buttonPress (d : ButtonDesc) : List Op := [.client d.press_fn, .requestRefresh]

/-! #### The power-off shutdown-wait loop of `NanoKVMPowerSwitch.async_turn_off` -/

/-- Constant `SHUTDOWN_TIMEOUT` of `NanoKVMPowerSwitch.async_turn_off`. -/
def SHUTDOWN_TIMEOUT : Nat := 300

/-- Constant `SHUTDOWN_POLL_INTERVAL` of `NanoKVMPowerSwitch.async_turn_off`. -/
def SHUTDOWN_POLL_INTERVAL : Nat := 5

/-- Outcome of the shutdown wait: power-off observed, or the timeout reached
(only a warning is logged; nothing is raised). -/
inductive ShutdownOutcome where
  | confirmed
  | unconfirmedTimeout
deriving DecidableEq, Repr

/-- The `while self.hass.loop.time() - start_time < SHUTDOWN_TIMEOUT` loop of
`NanoKVMPowerSwitch.async_turn_off`.  Each iteration requests a refresh,
checks `coordinator.gpio_info and not coordinator.gpio_info.pwr` and, if the
device is off, requests one final refresh and returns confirmed; otherwise it
sleeps `SHUTDOWN_POLL_INTERVAL` seconds.  Loop time advances by the sleep, so
the guard `elapsed < SHUTDOWN_TIMEOUT` admits exactly
`SHUTDOWN_TIMEOUT / SHUTDOWN_POLL_INTERVAL = 60` iterations; the countdown
`r = (SHUTDOWN_TIMEOUT - elapsed) / SHUTDOWN_POLL_INTERVAL` makes that guard
structural.  `env n` is the power flag held in `coordinator.gpio_info` after
the n-th refresh of this routine (`none` when gpio was never fetched), `n`
counts refreshes performed so far, `elapsed` is loop-relative time.  Returns
the outcome, the total number of refresh requests (the timeout path and the
confirmed path each add one final refresh) and the elapsed time at return. -/
def shutdownLoop (env : Nat → Option Bool) : Nat → Nat → Nat → ShutdownOutcome × Nat × Nat
  | 0, n, elapsed => (.unconfirmedTimeout, n + 1, elapsed)
  | r + 1, n, elapsed =>
    match env n with
    | some pwr =>
      if pwr then shutdownLoop env r (n + 1) (elapsed + SHUTDOWN_POLL_INTERVAL)
      else (.confirmed, n + 2, elapsed)
    | none => shutdownLoop env r (n + 1) (elapsed + SHUTDOWN_POLL_INTERVAL)

/-- Result of one run of `NanoKVMPowerSwitch.async_turn_off`. -/
structure PowerOffRun where
  action : CtrlCall
  outcome : ShutdownOutcome
  refreshes : Nat
  elapsedAtReturn : Nat
deriving DecidableEq, Repr

/-- `NanoKVMPowerSwitch.async_turn_off`: issue the power-off device call
(`turn_off_fn`, a `push_button(GpioType.POWER, 200)`), then run the bounded
shutdown-wait loop. -/
def powerSwitchTurnOff (env : Nat → Option Bool) : PowerOffRun :=
  let r := shutdownLoop env (SHUTDOWN_TIMEOUT / SHUTDOWN_POLL_INTERVAL) 0 0
  { action := .pushButton .power 200, outcome := r.1,
    refreshes := r.2.1, elapsedAtReturn := r.2.2 }

/-- Mocked power state that flips to off at the 3rd poll: the first two
refreshes observe power on, the third observes power off. -/
def envFlip3 : Nat → Option Bool := fun n => some (decide (n < 2))

/-- Mocked power state that never turns off. -/
def envNeverOff : Nat → Option Bool := fun _ => some true

/-! #### Registered services -/

/-- A configured device as seen by a service handler: its coordinator client,
reduced to whether each control call succeeds or raises. -/
structure CoordHandle where
  ctrlOk : CtrlCall → Bool

/-- The `for entry_id, coordinator in hass.data[DOMAIN].items()` loop shared
verbatim by all six service handlers of `async_setup_entry`: one device
control call per configured coordinator, a debug log on success and an error
log for a caught exception (the exception is never re-raised). -/
def serviceLoop (call : CtrlCall) : List CoordHandle → List Op
  | [] => []
  | c :: rest =>
    Op.client call :: (if c.ctrlOk call then Op.logDebug else Op.logError) :: serviceLoop call rest

/-- Service handler `handle_push_button`: map the validated button type to a
GPIO line, then run the per-coordinator dispatch loop. -/
def handle_push_button (cs : List CoordHandle) (button_type : String) (duration : Int) : List Op :=
  serviceLoop (.pushButton (if button_type = BUTTON_TYPE_POWER then .power else .reset) duration) cs

/-- Service handler `handle_paste_text`. -/
def handle_paste_text (cs : List CoordHandle) (text : String) : List Op :=
  serviceLoop (.pasteText text) cs

/-- Service handler `handle_reboot`. -/
def handle_reboot (cs : List CoordHandle) : List Op := serviceLoop .rebootSystem cs

/-- Service handler `handle_reset_hdmi`. -/
def handle_reset_hdmi (cs : List CoordHandle) : List Op := serviceLoop .resetHdmi cs

/-- Service handler `handle_reset_hid`. -/
def handle_reset_hid (cs : List CoordHandle) : List Op := serviceLoop .resetHid cs

/-- Service handler `handle_wake_on_lan`. -/
def handle_wake_on_lan (cs : List CoordHandle) (mac : String) : List Op :=
  serviceLoop (.sendWakeOnLan mac) cs

/-- Validation error produced by the service schema (voluptuous `Invalid`). -/
inductive ValidationErr where
  | invalid
deriving DecidableEq, Repr

/-- The `duration` rule of `PUSH_BUTTON_SCHEMA`:
`vol.Optional(ATTR_DURATION, default=100)` with
`vol.All(vol.Coerce(int), vol.Range(min=100, max=5000))`. -/
def validate_duration : Option Int → Except ValidationErr Int
  | none => .ok 100
  | some d => if 100 ≤ d ∧ d ≤ 5000 then .ok d else .error .invalid

/-- The `button_type` rule of `PUSH_BUTTON_SCHEMA`:
`vol.In([BUTTON_TYPE_POWER, BUTTON_TYPE_RESET])`. -/
def validate_button_type (bt : String) : Except ValidationErr String :=
  if bt = BUTTON_TYPE_POWER ∨ bt = BUTTON_TYPE_RESET then .ok bt else .error .invalid

/-- Modelled from the spec: the host service registry (host code outside this
repository) applies the schema registered with
`hass.services.async_register(..., schema=PUSH_BUTTON_SCHEMA)` to the call
data before the handler runs ("ValidationError (bad action parameters,
caught before dispatch)"), so invalid data yields a validation error and the
handler — hence any device call — is never reached. -/
def callPushButtonService (cs : List CoordHandle) (button_type : String)
    (duration : Option Int) : Except ValidationErr (List Op) :=
  match validate_button_type button_type, validate_duration duration with
  | .ok bt, .ok d => .ok (handle_push_button cs bt d)
  | _, _ => .error .invalid

/-- Control calls contained in a trace, in order. -/
def clientCalls : List Op → List CtrlCall
  | [] => []
  | Op.client c :: rest => c :: clientCalls rest
  | _ :: rest => clientCalls rest

/-- A coordinator handle whose device accepts every control call. -/
def coordOkAll : CoordHandle := ⟨fun _ => true⟩

/-- A coordinator handle whose device raises on every control call. -/
def coordFailAll : CoordHandle := ⟨fun _ => false⟩

/-! ## Helper lemmas -/

/-- The shared service dispatch loop never requests a coordinator refresh. -/
theorem requestRefresh_not_mem_serviceLoop (call : CtrlCall) (cs : List CoordHandle) :
    Op.requestRefresh ∉ serviceLoop call cs := by
  induction cs with
  | nil => simp [serviceLoop]
  | cons c rest ih => cases h : c.ctrlOk call <;> simp [serviceLoop, h, ih]

/-- The shared service dispatch loop issues exactly one device control call
per configured coordinator, whether or not individual calls raise. -/
theorem clientCalls_serviceLoop (call : CtrlCall) (cs : List CoordHandle) :
    clientCalls (serviceLoop call cs) = List.replicate cs.length call := by
  induction cs with
  | nil => rfl
  | cons c rest ih =>
    cases h : c.ctrlOk call <;> simp [serviceLoop, clientCalls, h, ih, List.replicate]

/-! ## Claims -/

/-- C1 as stated is false on the code: with a client whose 7th of the eleven
reads raises a transport error (`b7`), the refresh does return Failure, but
the coordinator sub-result field `mdns_state` — visible to entity accessors —
now holds the value fetched during the failed cycle, not its previous value. -/
theorem C1_counterexample :
    (async_update_data b7 1 s0).2 = .failed .commError ∧
    (async_update_data b7 1 s0).1.reads = readOrder.take 7 ∧
    (async_update_data b7 1 s0).1.coord.mdns_state ≠ s0.coord.mdns_state := by
  decide

/-- C1 amended: when the 7th of the eleven reads raises `CommunicationError`,
the refresh returns Failure and the previously published Snapshot (the
last-known-good `data`) is unchanged; however the coordinator attributes
assigned before the failing call (`device_info` through `mdns_state`) are
overwritten with values fetched during the failed cycle, while the attributes
from the failing call onward keep their previous values. -/
theorem C1_failed_cycle_state (prev : Option Snapshot) (fuel : Nat) :
    (async_update_data b7 (fuel + 1) s0).2 = .failed .commError ∧
    publish prev (async_update_data b7 (fuel + 1) s0).2 = prev ∧
    (async_update_data b7 (fuel + 1) s0).1.coord.device_info = some 101 ∧
    (async_update_data b7 (fuel + 1) s0).1.coord.hardware_info = some 102 ∧
    (async_update_data b7 (fuel + 1) s0).1.coord.gpio_info = some 103 ∧
    (async_update_data b7 (fuel + 1) s0).1.coord.virtual_device_info = some 104 ∧
    (async_update_data b7 (fuel + 1) s0).1.coord.ssh_state = some 105 ∧
    (async_update_data b7 (fuel + 1) s0).1.coord.mdns_state = some 106 ∧
    (async_update_data b7 (fuel + 1) s0).1.coord.hid_mode = s0.coord.hid_mode ∧
    (async_update_data b7 (fuel + 1) s0).1.coord.oled_info = s0.coord.oled_info ∧
    (async_update_data b7 (fuel + 1) s0).1.coord.wifi_status = s0.coord.wifi_status ∧
    (async_update_data b7 (fuel + 1) s0).1.coord.mounted_image = s0.coord.mounted_image ∧
    (async_update_data b7 (fuel + 1) s0).1.coord.cdrom_status = s0.coord.cdrom_status := by
  exact ⟨rfl, rfl, rfl, rfl, rfl, rfl, rfl, rfl, rfl, rfl, rfl, rfl, rfl⟩

/-- C2 fails on the code (the code contradicts the stated intent of bounded
re-authentication): with a client whose `authenticate` always succeeds while
the first read of every attempt is rejected as unauthenticated
(`bAuthLoop`), the recursion `return await self._async_update_data()` never
terminates — for every recursion budget, and from any counter state, the run
is still unfinished instead of reporting Failure after one retry. -/
theorem C2_unbounded_reauth_recursion (fuel nA nF : Nat) (rl : List ReadCall) :
    (async_update_data bAuthLoop fuel ⟨coordPrev, nA, nF, rl⟩).2 = .diverge := by
  induction fuel generalizing nA nF rl with
  | zero => rfl
  | succ n ih =>
    have hstep : async_update_data bAuthLoop (n + 1) ⟨coordPrev, nA, nF, rl⟩
        = async_update_data bAuthLoop n ⟨coordPrev, nA + 1, nF + 1, rl ++ [.getInfo]⟩ := by
      simp [async_update_data, tryFetch, runReads, readStep, exceptClause,
        bAuthLoop, coordPrev, BATCH_TIMEOUT, Bind.bind, Except.bind]
    rw [hstep]
    exact ih (nA + 1) (nF + 1) (rl ++ [.getInfo])

/-- C3 as stated is false on the code: with no token held and a client whose
first `authenticate` fails with an authentication error while the second
succeeds (`b3`), the refresh does not return Failure(AuthError) — the
`except` clause re-authenticates, retries the whole cycle, issues all eleven
reads and returns Success. -/
theorem C3_counterexample :
    (async_update_data b3 2 sNoToken).2
      = .ok ⟨101, 102, 103, 104, 105, 106, 107, 108, 109, 110, 111⟩ ∧
    (async_update_data b3 2 sNoToken).1.reads = readOrder := by
  decide

/-- C3 amended: when the session has no token and authentication fails with
an auth-specific error, one re-authentication is attempted; if it also fails
the whole refresh returns Failure(AuthError) after exactly two authenticate
calls, with no read call issued and the published Snapshot unchanged (if the
retry succeeds instead, the full cycle is re-run and may succeed, as the
counterexample shows). -/
theorem C3_initial_auth_failure (prev : Option Snapshot) (fuel : Nat) :
    (async_update_data bAuthFail (fuel + 1) sNoToken).2 = .failed .authError ∧
    (async_update_data bAuthFail (fuel + 1) sNoToken).1.reads = [] ∧
    (async_update_data bAuthFail (fuel + 1) sNoToken).1.nAuth = 2 ∧
    publish prev (async_update_data bAuthFail (fuel + 1) sNoToken).2 = prev := by
  exact ⟨rfl, rfl, rfl, rfl⟩

/-- C4: after issuing the power-off device call, `async_turn_off` polls via
refresh requests at the fixed 5-second interval; with a power state that
flips at the 3rd poll it returns confirmed with at most 3 poll intervals
elapsed, and with a power state that never flips it returns (rather than
raising) with the unconfirmed-timeout outcome when the 300-second bound
elapses. -/
theorem C4_power_off_bounded_poll :
    SHUTDOWN_POLL_INTERVAL = 5 ∧ SHUTDOWN_TIMEOUT = 300 ∧
    (powerSwitchTurnOff envFlip3).action = .pushButton .power 200 ∧
    (powerSwitchTurnOff envFlip3).outcome = .confirmed ∧
    (powerSwitchTurnOff envFlip3).elapsedAtReturn ≤ 3 * SHUTDOWN_POLL_INTERVAL ∧
    (powerSwitchTurnOff envNeverOff).outcome = .unconfirmedTimeout ∧
    (powerSwitchTurnOff envNeverOff).elapsedAtReturn = SHUTDOWN_TIMEOUT := by
  decide

/-- C5: when every read call of the attempt succeeds (with zero duration so
the batch timeout cannot intervene), the refresh returns Success with a
snapshot whose eleven fields are exactly the values returned by the client,
this snapshot becomes the published last-known-good state, and every
coordinator sub-result attribute is updated to the fetched value. -/
theorem C5_refresh_success (b : ClientBehavior) (s : RunSt) (fuel : Nat)
    (prev : Option Snapshot) (tok : V)
    (v1 v2 v3 v4 v5 v6 v7 v8 v9 v10 v11 : V)
    (htok : s.coord.token = some tok)
    (h1 : b.read s.nFetch .getInfo = .ok v1)
    (h2 : b.read s.nFetch .getHardware = .ok v2)
    (h3 : b.read s.nFetch .getGpio = .ok v3)
    (h4 : b.read s.nFetch .getVirtualDeviceStatus = .ok v4)
    (h5 : b.read s.nFetch .getSshState = .ok v5)
    (h6 : b.read s.nFetch .getMdnsState = .ok v6)
    (h7 : b.read s.nFetch .getHidMode = .ok v7)
    (h8 : b.read s.nFetch .getOledInfo = .ok v8)
    (h9 : b.read s.nFetch .getWifiStatus = .ok v9)
    (h10 : b.read s.nFetch .getMountedImage = .ok v10)
    (h11 : b.read s.nFetch .getCdromStatus = .ok v11)
    (hdur : ∀ c, b.dur s.nFetch c = 0) :
    (async_update_data b (fuel + 1) s).2
      = .ok ⟨v1, v2, v3, v4, v5, v6, v7, v8, v9, v10, v11⟩ ∧
    publish prev (async_update_data b (fuel + 1) s).2
      = some ⟨v1, v2, v3, v4, v5, v6, v7, v8, v9, v10, v11⟩ ∧
    (async_update_data b (fuel + 1) s).1.coord.device_info = some v1 ∧
    (async_update_data b (fuel + 1) s).1.coord.hardware_info = some v2 ∧
    (async_update_data b (fuel + 1) s).1.coord.gpio_info = some v3 ∧
    (async_update_data b (fuel + 1) s).1.coord.virtual_device_info = some v4 ∧
    (async_update_data b (fuel + 1) s).1.coord.ssh_state = some v5 ∧
    (async_update_data b (fuel + 1) s).1.coord.mdns_state = some v6 ∧
    (async_update_data b (fuel + 1) s).1.coord.hid_mode = some v7 ∧
    (async_update_data b (fuel + 1) s).1.coord.oled_info = some v8 ∧
    (async_update_data b (fuel + 1) s).1.coord.wifi_status = some v9 ∧
    (async_update_data b (fuel + 1) s).1.coord.mounted_image = some v10 ∧
    (async_update_data b (fuel + 1) s).1.coord.cdrom_status = some v11 := by
  simp [async_update_data, tryFetch, runReads, readStep, publish, htok,
    h1, h2, h3, h4, h5, h6, h7, h8, h9, h10, h11, hdur, BATCH_TIMEOUT,
    Bind.bind, Except.bind, Pure.pure, Except.pure]

/-- C5 witness: the success theorem instantiated at the all-success mocked
client `bAllOk` starting from the post-setup state `s0`. -/
theorem C5_refresh_success_witness :
    (async_update_data bAllOk 1 s0).2
      = .ok ⟨101, 102, 103, 104, 105, 106, 107, 108, 109, 110, 111⟩ ∧
    publish none (async_update_data bAllOk 1 s0).2
      = some ⟨101, 102, 103, 104, 105, 106, 107, 108, 109, 110, 111⟩ := by
  have h := C5_refresh_success bAllOk s0 0 none 0
    101 102 103 104 105 106 107 108 109 110 111
    rfl rfl rfl rfl rfl rfl rfl rfl rfl rfl rfl rfl (fun _ => rfl)
  exact ⟨h.1, h.2.1⟩

/-- C6: with a valid token, whenever the batch of sequential reads fails with
a transport error or the shared timeout (any caught error other than an
authentication rejection), the cycle returns Failure(CommunicationError) and
the published Snapshot is unchanged.  The timeout is shared by the whole
batch rather than per-call: under `bSlow` every individual read takes 1 unit
(far below the 10-unit bound) yet the batch of eleven trips the timeout and
the cycle fails; and under `bAllOk` the full set of reads is issued in the
fixed sequential order. -/
theorem C6_comm_or_timeout (b : ClientBehavior) (s : RunSt) (fuel : Nat)
    (prev : Option Snapshot) (tok : V) (e : KVMErr)
    (htok : s.coord.token = some tok)
    (he : e ≠ .authFailure)
    (hrun : ∃ fs, runReads b s.nFetch s.coord = .error (fs, e)) :
    (async_update_data b (fuel + 1) s).2 = .failed .commError ∧
    publish prev (async_update_data b (fuel + 1) s).2 = prev ∧
    (async_update_data bSlow 1 s0).2 = .failed .commError ∧
    (∀ c, bSlow.dur 0 c < BATCH_TIMEOUT) ∧
    (async_update_data bAllOk 1 s0).1.reads = readOrder := by
  obtain ⟨fs, hrun⟩ := hrun
  have h2 : (async_update_data b (fuel + 1) s).2 = .failed .commError := by
    cases e with
    | authFailure => exact absurd rfl he
    | commFailure => simp [async_update_data, tryFetch, htok, hrun, exceptClause]
    | timeoutErr => simp [async_update_data, tryFetch, htok, hrun, exceptClause]
  refine ⟨h2, ?_, by decide, by intro c; show (1 : Nat) < 10; decide, by decide⟩
  rw [h2]
  rfl

/-- C6 witness: the failure theorem instantiated at the mocked client `b7`
whose 7th read raises a transport error. -/
theorem C6_comm_or_timeout_witness :
    (async_update_data b7 1 s0).2 = .failed .commError ∧
    publish (some ⟨1, 2, 3, 4, 5, 6, 7, 8, 9, 10, 11⟩) (async_update_data b7 1 s0).2
      = some ⟨1, 2, 3, 4, 5, 6, 7, 8, 9, 10, 11⟩ := by
  have h := C6_comm_or_timeout b7 s0 0 (some ⟨1, 2, 3, 4, 5, 6, 7, 8, 9, 10, 11⟩) 0
    .commFailure rfl (by decide) ⟨_, rfl⟩
  exact ⟨h.1, h.2.1⟩

/-- C7 as stated is false on the code: the registered `push_button` service
dispatches the device control call but issues no
`coordinator.async_request_refresh()` afterwards. -/
theorem C7_counterexample :
    Op.client (.pushButton .power 100) ∈ handle_push_button [coordOkAll] BUTTON_TYPE_POWER 100 ∧
    Op.requestRefresh ∉ handle_push_button [coordOkAll] BUTTON_TYPE_POWER 100 := by
  decide

/-- C7 amended: the entity actions — switch turn-on / turn-off for every
entry of the `SWITCHES` table, button press for every entry of `BUTTONS`,
and the power-switch turn-on — each end with an explicit `request_refresh`,
but none of the six registered service handlers ever requests a refresh. -/
theorem C7_entity_refresh_services_none :
    (SWITCHES.all fun d =>
      ((switchTurnOn d).getLast? == some Op.requestRefresh) &&
      ((switchTurnOff d).getLast? == some Op.requestRefresh)) = true ∧
    (BUTTONS.all fun d => (buttonPress d).getLast? == some Op.requestRefresh) = true ∧
    powerSwitchTurnOnTrace.getLast? = some Op.requestRefresh ∧
    (∀ cs bt dur, Op.requestRefresh ∉ handle_push_button cs bt dur) ∧
    (∀ cs t, Op.requestRefresh ∉ handle_paste_text cs t) ∧
    (∀ cs, Op.requestRefresh ∉ handle_reboot cs) ∧
    (∀ cs, Op.requestRefresh ∉ handle_reset_hdmi cs) ∧
    (∀ cs, Op.requestRefresh ∉ handle_reset_hid cs) ∧
    (∀ cs mac, Op.requestRefresh ∉ handle_wake_on_lan cs mac) := by
  refine ⟨by decide, by decide, rfl,
    fun cs bt dur => requestRefresh_not_mem_serviceLoop _ cs,
    fun cs t => requestRefresh_not_mem_serviceLoop _ cs,
    fun cs => requestRefresh_not_mem_serviceLoop _ cs,
    fun cs => requestRefresh_not_mem_serviceLoop _ cs,
    fun cs => requestRefresh_not_mem_serviceLoop _ cs,
    fun cs mac => requestRefresh_not_mem_serviceLoop _ cs⟩

/-- C8: in the `SWITCHES` table, the virtual-network and virtual-disk
entries use the identical `update_virtual_device` toggle call for turn-on
and turn-off, so the embedded turn-on and turn-off operations (and hence the
entity action traces built from them) are equal. -/
theorem C8_virtual_toggle_identical :
    virtualNetworkSwitch ∈ SWITCHES ∧ virtualDiskSwitch ∈ SWITCHES ∧
    virtualNetworkSwitch.turn_on_fn = virtualNetworkSwitch.turn_off_fn ∧
    virtualNetworkSwitch.turn_on_fn = .updateVirtualDevice .network ∧
    virtualDiskSwitch.turn_on_fn = virtualDiskSwitch.turn_off_fn ∧
    virtualDiskSwitch.turn_on_fn = .updateVirtualDevice .disk ∧
    switchTurnOn virtualNetworkSwitch = switchTurnOff virtualNetworkSwitch ∧
    switchTurnOn virtualDiskSwitch = switchTurnOff virtualDiskSwitch := by
  decide

/-- C9: the `duration` field of `PUSH_BUTTON_SCHEMA` is rejected for every
value outside [100, 5000] — in which case the validated service call fails
before any device call is dispatched — is accepted at the boundary values
100 and 5000, and defaults to 100 when omitted. -/
theorem C9_duration_validation :
    (∀ d : Int, (d < 100 ∨ 5000 < d) →
      validate_duration (some d) = .error .invalid ∧
      ∀ cs bt, callPushButtonService cs bt (some d) = .error .invalid) ∧
    validate_duration (some 100) = .ok 100 ∧
    validate_duration (some 5000) = .ok 5000 ∧
    validate_duration none = .ok 100 ∧
    (∀ cs, callPushButtonService cs BUTTON_TYPE_POWER none
      = .ok (handle_push_button cs BUTTON_TYPE_POWER 100)) ∧
    (∀ cs, callPushButtonService cs BUTTON_TYPE_POWER (some 100)
      = .ok (handle_push_button cs BUTTON_TYPE_POWER 100)) ∧
    (∀ cs, callPushButtonService cs BUTTON_TYPE_POWER (some 5000)
      = .ok (handle_push_button cs BUTTON_TYPE_POWER 5000)) := by
  refine ⟨?_, rfl, rfl, rfl,
    fun cs => rfl, fun cs => rfl, fun cs => rfl⟩
  intro d hd
  have hno : ¬(100 ≤ d ∧ d ≤ 5000) := by
    rcases hd with h | h <;> omega
  have hv : validate_duration (some d) = .error .invalid := by
    simp [validate_duration, hno]
  refine ⟨hv, fun cs bt => ?_⟩
  cases hbt : validate_button_type bt <;> simp [callPushButtonService, hv, hbt]

/-- C9 witness: the validation theorem applied at the out-of-range duration
5001 (and, from its closed conjuncts, at the boundaries and the default). -/
theorem C9_duration_validation_witness :
    validate_duration (some 5001) = .error .invalid ∧
    callPushButtonService [] BUTTON_TYPE_POWER (some 5001) = .error .invalid := by
  have h := C9_duration_validation.1 5001 (Or.inr (by decide))
  exact ⟨h.1, h.2 [] BUTTON_TYPE_POWER⟩

/-- C10: every registered service dispatches its device control call exactly
once to every configured coordinator (one call per entry of the domain
registry, in order), not to a single addressed device; an exception raised
by an individual dispatch is caught and logged while the loop continues,
as the concrete two-coordinator run with a failing first device shows. -/
theorem C10_services_broadcast :
    (∀ cs bt dur, clientCalls (handle_push_button cs bt dur)
      = List.replicate cs.length
          (.pushButton (if bt = BUTTON_TYPE_POWER then .power else .reset) dur)) ∧
    (∀ cs t, clientCalls (handle_paste_text cs t)
      = List.replicate cs.length (.pasteText t)) ∧
    (∀ cs, clientCalls (handle_reboot cs) = List.replicate cs.length .rebootSystem) ∧
    (∀ cs, clientCalls (handle_reset_hdmi cs) = List.replicate cs.length .resetHdmi) ∧
    (∀ cs, clientCalls (handle_reset_hid cs) = List.replicate cs.length .resetHid) ∧
    (∀ cs mac, clientCalls (handle_wake_on_lan cs mac)
      = List.replicate cs.length (.sendWakeOnLan mac)) ∧
    handle_reboot [coordFailAll, coordOkAll]
      = [.client .rebootSystem, .logError, .client .rebootSystem, .logDebug] := by
  refine ⟨fun cs bt dur => clientCalls_serviceLoop _ cs,
    fun cs t => clientCalls_serviceLoop _ cs,
    fun cs => clientCalls_serviceLoop _ cs,
    fun cs => clientCalls_serviceLoop _ cs,
    fun cs => clientCalls_serviceLoop _ cs,
    fun cs mac => clientCalls_serviceLoop _ cs,
    by decide⟩

end NanoKVMSpec
